import Mathlib

/-!
Shallow embedding of the Lyrica fetch-race orchestrator and match validator
(`src/validator.py` and `src/fetch_controller.py`), with theorems settling the
frozen claims about them.

Modelling conventions:
* Python strings are Lean `String`s; character-level work is done on `String.data`
  (`List Char`, one entry per Unicode scalar, matching Python `len`/indexing).
* Python floats are modelled as exact rationals (`ℚ`).  All score arithmetic in
  the source stays within small rationals, far from any binary-float rounding
  boundary at the comparison points exercised here.
* `unicodedata.normalize("NFC", ·)` is modelled as the identity: every string
  manipulated in this development is already NFC-normal, and NFC is the
  identity on NFC-normal input.
* Python's Unicode-aware `\w` character class and `str.lower` are modelled by
  explicit code-point tables covering ASCII plus the scripts this code base
  deals with (the scripts of `_NON_LATIN_RANGES`); marks and punctuation inside
  those blocks are excluded, as in Python.
* Concurrency: an execution of the parallel race is modelled by the list of the
  dispatched tasks' settled outcomes in completion order (the order in which the
  coordinating loop observes them); the race loop is a fold over that list, and
  cancelling the pending tasks corresponds to returning before the list is
  exhausted.
-/

/-! ### Character utilities (model of Python `\s`, `\w`, `str.lower`) -/

/-- Model of Python regex `\s` for the characters handled here. -/
def pyIsSpace (c : Char) : Bool :=
  c = ' ' || c = '\t' || c = '\n' || c = '\r' || c = '\x0b' || c = '\x0c'

/-- Code-point ranges (inclusive) of non-ASCII word characters, an explicit
approximation of Python's Unicode `\w` letters/digits for the scripts this code
base deals with (marks and punctuation excluded, as in Python). -/
def extraWordRanges : List (Nat × Nat) :=
  [(0xC0, 0xD6), (0xD8, 0xF6), (0xF8, 0x24F),
   (0x391, 0x3A9), (0x3B1, 0x3C9),
   (0x400, 0x47F),
   (0x5D0, 0x5EA),
   (0x621, 0x64A),
   (0x904, 0x939), (0x958, 0x961), (0x966, 0x96F),
   (0xA05, 0xA39), (0xA59, 0xA5E), (0xA72, 0xA74),
   (0xA85, 0xAB9),
   (0xB05, 0xB39),
   (0xB85, 0xBB9),
   (0xC05, 0xC39),
   (0xC85, 0xCB9),
   (0xD05, 0xD39),
   (0xE01, 0xE2E),
   (0xF40, 0xF6C),
   (0x1100, 0x11FF),
   (0x3041, 0x30FF), (0x3400, 0x9FFF),
   (0xAC00, 0xD7A3)]

/-- Model of Python regex `\w` (Unicode word character). -/
def isWordChar (c : Char) : Bool :=
  c.isAlphanum || c = '_' ||
    extraWordRanges.any (fun p => p.1 ≤ c.toNat && c.toNat ≤ p.2)

/-- Model of Python `str.lower` for ASCII, Cyrillic and Greek capitals
(the only capitals that can occur in this development). -/
def pyToLower (c : Char) : Char :=
  if 'A' ≤ c && c ≤ 'Z' then Char.ofNat (c.toNat + 32)
  else if 0x410 ≤ c.toNat && c.toNat ≤ 0x42F then Char.ofNat (c.toNat + 32)
  else if 0x391 ≤ c.toNat && c.toNat ≤ 0x3A9 then Char.ofNat (c.toNat + 32)
  else c

/-! ### Generic list-of-char string helpers (structural, kernel-computable) -/

/-- Replace each maximal run of whitespace by a single `' '`
(model of `re.sub(r"\s+", " ", text)`).  The flag records whether the
previous character was part of a whitespace run. -/
def collapseWS : Bool → List Char → List Char
  | _, [] => []
  | prevSpace, c :: cs =>
    if pyIsSpace c then
      if prevSpace then collapseWS true cs else ' ' :: collapseWS true cs
    else c :: collapseWS false cs

/-- Remove leading and trailing whitespace (model of Python `str.strip`). -/
def stripWS (l : List Char) : List Char :=
  ((l.dropWhile pyIsSpace).reverse.dropWhile pyIsSpace).reverse

/-- Python `needle in hay` substring test. -/
def strContains (hay needle : List Char) : Bool :=
  needle.isPrefixOf hay ||
    match hay with
    | [] => false
    | _ :: t => strContains t needle

/-- Join a list of strings with a separator (model of `sep.join(parts)`). -/
def joinSep (sep : String) : List String → String
  | [] => ""
  | [s] => s
  | s :: rest => s ++ sep ++ joinSep sep rest

/-! ### Normalizer (`validator.py` lines 84-95) -/

/-- `unicodedata.normalize("NFC", text)`: modelled as the identity; every
string considered in this development is already NFC-normal, and NFC is the
identity on NFC-normal input. -/
def nfc (s : String) : String := s

/-- `normalize_string` (`validator.py:84`): NFC-normalise, strip punctuation
(keep word characters and whitespace), collapse whitespace, lowercase, strip. -/
def normalize_string (s : String) : String :=
  let t := (nfc s).data.filter (fun c => isWordChar c || pyIsSpace c)
  let t := collapseWS false t
  let t := t.map pyToLower
  ⟨stripWS t⟩

/-! ### Artist splitting (`validator.py` lines 98-114)

`split_artists` first rewrites the separator words with
`re.sub(r'\s*(feat\.|ft\.|featuring|with|&|and)\s*', ', ', s, flags=re.I)`
and then splits on `re.split(r'\s*[,;/]\s*', s)`.  The regex machinery is
modelled by an explicit left-to-right scan with the same leftmost-match,
alternatives-in-order semantics (note that, as in the source, the separator
words are *not* anchored at word boundaries). -/

/-- The separator alternatives of the `re.sub`, in the order the regex tries
them. -/
def sepAlternatives : List (List Char) :=
  ["feat.".data, "ft.".data, "featuring".data, "with".data, "&".data, "and".data]

/-- ASCII-case-insensitive prefix test (model of `re.I` matching for the
all-ASCII separator words). -/
def ciIsPrefix : List Char → List Char → Bool
  | [], _ => true
  | _ :: _, [] => false
  | p :: ps, c :: cs => (pyToLower p = pyToLower c) && ciIsPrefix ps cs

/-- Try the separator alternatives in order at the head of `l`; on a match
return the remainder after the matched word. -/
def trySeps (l : List Char) : Option (List Char) :=
  match sepAlternatives.find? (fun p => ciIsPrefix p l) with
  | some p => some (l.drop p.length)
  | none => none

/-- One pass of `re.sub(r'\s*(feat\.|ft\.|featuring|with|&|and)\s*', ', ', ·)`:
scan left to right; at each position try to match optional whitespace followed
by a separator word followed by optional whitespace, and replace the whole
match by `", "`; otherwise keep the character and advance.  Fuel-indexed for
structural termination; `length l` fuel always suffices. -/
def subSepsF : Nat → List Char → List Char
  | 0, l => l
  | fuel + 1, l =>
    match l with
    | [] => []
    | c :: cs =>
      match trySeps (l.dropWhile pyIsSpace) with
      | some r => ',' :: ' ' :: subSepsF fuel (r.dropWhile pyIsSpace)
      | none => c :: subSepsF fuel cs

def subSeps (l : List Char) : List Char := subSepsF l.length l

/-- `re.split(r'\s*[,;/]\s*', ·)`: scan left to right; at each position a
match is optional whitespace followed by one of `, ; /` followed by optional
whitespace.  `cur` is the (reversed) token being accumulated.  Fuel-indexed;
`length l` fuel always suffices. -/
def splitSepsF : Nat → List Char → List Char → List (List Char)
  | 0, cur, l => [cur.reverse ++ l]
  | fuel + 1, cur, l =>
    match l with
    | [] => [cur.reverse]
    | c :: cs =>
      match l.dropWhile pyIsSpace with
      | sep :: tail =>
        if sep = ',' || sep = ';' || sep = '/' then
          cur.reverse :: splitSepsF fuel [] (tail.dropWhile pyIsSpace)
        else splitSepsF fuel (c :: cur) cs
      | [] => splitSepsF fuel (c :: cur) cs

def splitSeps (l : List Char) : List (List Char) := splitSepsF l.length [] l

/-- Normalise each part, drop empties, deduplicate keeping first occurrences
(the `seen` set / `result` list loop shared by `split_artists` and
`extract_artist_song_from_result`). -/
def normDedupGo : List String → List String → List String
  | [], acc => acc.reverse
  | a :: rest, acc =>
    let n := normalize_string a
    if n ≠ "" && !(acc.contains n) then normDedupGo rest (n :: acc)
    else normDedupGo rest acc

def normDedup (l : List String) : List String := normDedupGo l []

/-- `split_artists` (`validator.py:98`). -/
def split_artists (artist_str : String) : List String :=
  normDedup ((splitSeps (subSeps artist_str.data)).map (fun l => ⟨l⟩))

/-! ### Candidate result dictionaries (`validator.py` lines 117-140)

A fetcher result is a Python dict with duck-typed fields.  The artist-like
fields can hold a string or a list of strings; the song-like fields hold
strings.  Python `or`-chaining picks the first *truthy* value (`None`, `""`
and `[]` are falsy). -/

inductive ArtistVal
  | str (s : String)
  | list (l : List String)
deriving DecidableEq

/-- Truthiness of an artist field value. -/
def ArtistVal.truthy : ArtistVal → Bool
  | .str s => s ≠ ""
  | .list l => l ≠ []

structure ResultDict where
  artist : Option ArtistVal := none
  artists : Option ArtistVal := none
  artist_name : Option ArtistVal := none
  trackArtist : Option ArtistVal := none
  song : Option String := none
  song_title : Option String := none
  title : Option String := none
  name : Option String := none
  trackName : Option String := none
deriving DecidableEq

/-- First truthy value of an `or`-chain of optional artist fields. -/
def firstTruthyArtist : List (Option ArtistVal) → Option ArtistVal
  | [] => none
  | some v :: rest => if v.truthy then some v else firstTruthyArtist rest
  | none :: rest => firstTruthyArtist rest

/-- First truthy value of an `or`-chain of optional string fields. -/
def firstTruthyStr : List (Option String) → Option String
  | [] => none
  | some v :: rest => if v ≠ "" then some v else firstTruthyStr rest
  | none :: rest => firstTruthyStr rest

/-- `extract_artist_song_from_result` (`validator.py:117`). -/
def extract_artist_song_from_result (result : ResultDict) : List String × String :=
  let artist := firstTruthyArtist
    [result.artist, result.artists, result.artist_name, result.trackArtist]
  let song := firstTruthyStr
    [result.song, result.song_title, result.title, result.name, result.trackName]
  let returned_artists :=
    match artist with
    | some (.list l) => normDedup l
    | some (.str s) => split_artists s
    | none => []
  (returned_artists, normalize_string (song.getD ""))


/-! ### SequenceMatcher ratio (difflib, as used via `get_similarity_ratio`)

`difflib.SequenceMatcher(None, a, b).ratio()` is `2*M/(len(a)+len(b))` where
`M` is the total size of the matching blocks.  `find_longest_match` is modelled
by its documented semantics (no junk: `isjunk=None`, and the autojunk
heuristic is inert below 200 characters, which covers every string this code
compares): among all maximal matching blocks, the one starting earliest in `a`
and, among those, earliest in `b`. -/

/-- Length of the common prefix run of two suffixes. -/
def matchLen : List Char → List Char → Nat
  | x :: xs, y :: ys => if x = y then matchLen xs ys + 1 else 0
  | _, _ => 0

/-- All candidate blocks `(i, j, matchLen (a.drop i) (b.drop j))`. -/
def flmCandidates (a b : List Char) : List (Nat × Nat × Nat) :=
  (List.range a.length).flatMap (fun i =>
    (List.range b.length).map (fun j => (i, j, matchLen (a.drop i) (b.drop j))))

/-- Keep the first candidate of maximal size (strict improvement), which is
the earliest-in-`a`-then-earliest-in-`b` maximal block. -/
def pickBest (l : List (Nat × Nat × Nat)) : Nat × Nat × Nat :=
  l.foldl (fun best c => if best.2.2 < c.2.2 then c else best) (0, 0, 0)

/-- `find_longest_match` over whole lists (windows are realised by passing the
relevant sublists). -/
def find_longest_match (a b : List Char) : Nat × Nat × Nat :=
  pickBest (flmCandidates a b)

/-- Total size `M` of the matching blocks (`get_matching_blocks` recursion;
merging adjacent blocks does not change the total).  Fuel-indexed; fuel
`length a` always suffices since each recursive call strictly shrinks `a`. -/
def matchTotalF : Nat → List Char → List Char → Nat
  | 0, _, _ => 0
  | fuel + 1, a, b =>
    let (i, j, k) := find_longest_match a b
    if k = 0 then 0
    else
      matchTotalF fuel (a.take i) (b.take j) + k +
        matchTotalF fuel (a.drop (i + k)) (b.drop (j + k))

def matchTotal (a b : List Char) : Nat := matchTotalF a.length a b

/-- `SequenceMatcher(None, a, b).ratio()` (`_calculate_ratio`). -/
def seqRatio (a b : List Char) : ℚ :=
  if a.length + b.length = 0 then 1
  else (2 * matchTotal a b : ℚ) / (a.length + b.length)

/-- `get_similarity_ratio` (`validator.py:147`): normalise both sides, return
`0.0` if either is empty, else the SequenceMatcher ratio. -/
def get_similarity_ratio (str1 str2 : String) : ℚ :=
  let s1 := normalize_string str1
  let s2 := normalize_string str2
  if s1 = "" || s2 = "" then 0
  else seqRatio s1.data s2.data

/-! ### Script detection (`validator.py` lines 43-77) -/

/-- `_NON_LATIN_RANGES` (`validator.py:43`), verbatim. -/
def _NON_LATIN_RANGES : List (Nat × Nat) :=
  [(0x0600, 0x06FF),
   (0x0900, 0x097F),
   (0x0A00, 0x0A7F),
   (0x0A80, 0x0AFF),
   (0x0B00, 0x0B7F),
   (0x0B80, 0x0BFF),
   (0x0C00, 0x0C7F),
   (0x0C80, 0x0CFF),
   (0x0D00, 0x0D7F),
   (0x0E00, 0x0E7F),
   (0x0F00, 0x0FFF),
   (0x1100, 0x11FF),
   (0x3000, 0x9FFF),
   (0xAC00, 0xD7AF),
   (0x0400, 0x04FF),
   (0x0370, 0x03FF),
   (0x0590, 0x05FF)]

/-- Whether one character falls in any of the non-Latin ranges. -/
def inNonLatinRange (c : Char) : Bool :=
  _NON_LATIN_RANGES.any (fun p => p.1 ≤ c.toNat && c.toNat ≤ p.2)

/-- Number of characters of `s` in the non-Latin ranges. -/
def countNonLatin (s : String) : Nat :=
  (s.data.filter inNonLatinRange).length

/-- `_has_non_latin_script` (`validator.py:64`):
`non_latin > max(1, len(text) * 0.2)` after an empty-string guard. -/
def _has_non_latin_script (s : String) : Bool :=
  if s = "" then false
  else decide ((max 1 ((s.length : ℚ) * (1 / 5))) < (countNonLatin s : ℚ))

/-- `_scripts_compatible` (`validator.py:75`). -/
def _scripts_compatible (s1 s2 : String) : Bool :=
  _has_non_latin_script s1 = _has_non_latin_script s2

/-! ### Adaptive threshold and rounding -/

/-- `_adaptive_threshold` (`validator.py:155`). -/
def _adaptive_threshold (text : String) (base : ℚ) : ℚ :=
  let length := (normalize_string text).length
  if length ≤ 4 then max (2/5) (base - 7/20)
  else if length ≤ 6 then max (1/2) (base - 1/5)
  else if length ≤ 10 then max (3/5) (base - 1/10)
  else base

/-- Round to the nearest integer, ties to even (Python `round`). -/
def roundHalfEven (y : ℚ) : ℤ :=
  let f := ⌊y⌋
  let r := y - (f : ℚ)
  if r < 1/2 then f
  else if 1/2 < r then f + 1
  else if f % 2 = 0 then f else f + 1

/-- Python `round(x, 3)`. -/
def round3 (x : ℚ) : ℚ := (roundHalfEven (x * 1000) : ℚ) / 1000

/-- Python `f"{x:.2f}"` for the non-negative scores appearing in reject
reasons. -/
def fmt2 (x : ℚ) : String :=
  let n := (roundHalfEven (x * 100)).toNat
  let frac := n % 100
  toString (n / 100) ++ "." ++ (if frac < 10 then "0" else "") ++ toString frac

/-! ### Validation verdict (`validator.py` lines 176-332) -/

structure Verdict where
  valid : Bool
  reason : String
  artist_match : ℚ
  song_match : ℚ
  returned_artists : List String
  returned_song : String
  script_mismatch : Bool
deriving DecidableEq

/-- `_accept` (`validator.py:323`). -/
def _accept (reason : String) (artist_score song_score : ℚ)
    (returned_artists : List String) (returned_song : String)
    (script_mismatch : Bool) : Verdict :=
  { valid := true
    reason := reason
    artist_match := round3 artist_score
    song_match := round3 song_score
    returned_artists := returned_artists
    returned_song := returned_song
    script_mismatch := script_mismatch }

/-- The song-title check of `validate_lyrics_match` (step 4, `validator.py`
lines 232-237): similarity at or above the song threshold, or the normalized
requested title (at least 3 characters) is a substring of the returned one. -/
def song_check (norm_req_song returned_song : String) (song_thresh : ℚ) : Bool :=
  let song_sim := get_similarity_ratio norm_req_song returned_song
  let song_contained :=
    decide (3 ≤ norm_req_song.length) && strContains returned_song.data norm_req_song.data
  decide (song_thresh ≤ song_sim) || song_contained

/-- The `song_contained` flag on its own (`validator.py:236`). -/
def song_contained_chk (norm_req_song returned_song : String) : Bool :=
  decide (3 ≤ norm_req_song.length) && strContains returned_song.data norm_req_song.data

/-- The artist-check loop of `validate_lyrics_match` (step 5, `validator.py`
lines 250-289).  Iterates the requested artists; before the checks the best
pairwise similarity accumulator is updated; the first check that fires breaks
the loop.  Returns `(found_artist, best_artist_score, match_method)`. -/
def artistLoop (artist_thresh : ℚ) (returned_artists : List String)
    (returned_song raw_returned_str norm_req_artist_full : String)
    (song_contained : Bool) (song_sim : ℚ) :
    List String → ℚ → Bool × ℚ × String
  | [], best => (false, best, "None")
  | req :: rest, best =>
    let best := returned_artists.foldl
      (fun b ret => max b (get_similarity_ratio req ret)) best
    if returned_artists.any
        (fun ret => decide (artist_thresh ≤ get_similarity_ratio req ret)) then
      (true, best, "Direct similarity")
    else if decide (3 ≤ req.length) && strContains raw_returned_str.data req.data then
      (true, best, "Substring match")
    else if decide (3 ≤ req.length) && strContains returned_song.data req.data then
      (true, best, "Featured in title")
    else if returned_artists.any
        (fun ret => decide (3 ≤ ret.length) &&
          strContains norm_req_artist_full.data ret.data) then
      (true, best, "Reversed collab attribution")
    else if song_contained || decide ((4/5 : ℚ) ≤ song_sim) then
      (true, best, "Song title confirms identity — collab accepted")
    else
      artistLoop artist_thresh returned_artists returned_song raw_returned_str
        norm_req_artist_full song_contained song_sim rest best

/-- The artist-script compatibility test of step 2 (`validator.py` lines
212-218): when both sides expose artists, some requested/returned pair must be
script-compatible; otherwise the test passes vacuously. -/
def artist_scripts_chk (requested_artists returned_artists : List String) : Bool :=
  if !requested_artists.isEmpty && !returned_artists.isEmpty then
    requested_artists.any (fun req =>
      returned_artists.any (fun ret => _scripts_compatible req ret))
  else true

/-- The artist-check stage (step 5, `validator.py` lines 240-289):
`(found_artist, best_artist_score, match_method)` — trivially found when the
candidate exposes no artists, otherwise the `artistLoop`. -/
def validate_artist_stage (requested_artist : String)
    (requested_artists returned_artists : List String) (returned_song : String)
    (artist_thresh : ℚ) (song_contained : Bool) (song_sim : ℚ) :
    Bool × ℚ × String :=
  if returned_artists.isEmpty then
    (true, (0 : ℚ), "No artist metadata — song-only match")
  else
    artistLoop artist_thresh returned_artists returned_song
      (joinSep " " returned_artists) (normalize_string requested_artist)
      song_contained song_sim requested_artists 0

/-- `validate_lyrics_match` (`validator.py:176`). -/
def validate_lyrics_match (requested_artist requested_song : String)
    (result : ResultDict) (threshold : ℚ) : Verdict :=
  let requested_artists := split_artists requested_artist
  let norm_req_song := normalize_string requested_song
  let extracted := extract_artist_song_from_result result
  let returned_artists := extracted.1
  let returned_song := extracted.2
  -- step 1: no song title in result → trust the fetcher
  if returned_song = "" then
    _accept "No metadata to compare — trusting fetcher" 1 1
      returned_artists returned_song false
  else
    -- step 2: cross-script detection → bypass similarity entirely
    let song_scripts_ok := _scripts_compatible norm_req_song returned_song
    let artist_scripts_ok := artist_scripts_chk requested_artists returned_artists
    if !song_scripts_ok || !artist_scripts_ok then
      _accept "Cross-script match — similarity bypassed" 1 1
        returned_artists returned_song true
    else
      -- step 3: adaptive thresholds
      let song_thresh := _adaptive_threshold requested_song threshold
      let artist_thresh := _adaptive_threshold requested_artist threshold
      -- step 4: song title check
      let song_sim := get_similarity_ratio norm_req_song returned_song
      let song_contained := song_contained_chk norm_req_song returned_song
      let song_ok := song_check norm_req_song returned_song song_thresh
      -- step 5: artist check
      let ar := validate_artist_stage requested_artist requested_artists
        returned_artists returned_song artist_thresh song_contained song_sim
      -- step 6: decision
      if ar.1 && song_ok then
        _accept ("Matched via " ++ ar.2.2) ar.2.1 song_sim
          returned_artists returned_song false
      else
        let parts :=
          (if !ar.1 then
            ["artist score=" ++ fmt2 ar.2.1 ++ " < " ++ fmt2 artist_thresh]
          else []) ++
          (if !song_ok then
            ["song score=" ++ fmt2 song_sim ++ " < " ++ fmt2 song_thresh]
          else [])
        { valid := false
          reason := joinSep " | " parts
          artist_match := round3 ar.2.1
          song_match := round3 song_sim
          returned_artists := returned_artists
          returned_song := returned_song
          script_mismatch := false }

/-! ### Parallel race (`fetch_controller.py` lines 81-162)

An execution is modelled by the list of the dispatched tasks' settled outcomes
in the order the coordinating loop observes them (completion order).  Each
task settles exactly once (`fetch_with_timeout` never raises), so one list
entry per dispatched task. -/

inductive FetchOutcome
  | success (result : ResultDict)
  | failure (reason : String)
deriving DecidableEq

structure Completion where
  api : String
  outcome : FetchOutcome
deriving DecidableEq

def Completion.isSuccess (c : Completion) : Bool :=
  match c.outcome with
  | .success _ => true
  | .failure _ => false

/-- The `while pending` loop of `fetch_lyrics_parallel`: record each attempt
in completion order; a non-success or a success that fails validation leaves
the pending tasks untouched and continues; a success that passes validation
cancels the pending tasks (returns before the remaining completions are
consumed) and yields the winner with the attempts so far. -/
def raceLoop (valid : ResultDict → Bool) :
    List Completion → List Completion → Option ResultDict × List Completion
  | [], acc => (none, acc)
  | c :: rest, acc =>
    match c.outcome with
    | .failure _ => raceLoop valid rest (acc ++ [c])
    | .success r =>
      if valid r then (some r, acc ++ [c])
      else raceLoop valid rest (acc ++ [c])

/-- `fetch_lyrics_parallel` (`fetch_controller.py:81`), validation fixed at
threshold `0.75` as in line 139. -/
def fetch_lyrics_parallel (artist song : String)
    (completions : List Completion) : Option ResultDict × List Completion :=
  raceLoop (fun r => (validate_lyrics_match artist song r (3/4)).valid)
    completions []

/-! ### Controller (`fetch_controller.py` lines 169-239) -/

structure ValidationSurface where
  artist_match : ℚ
  song_match : ℚ
  reason : String
  script_mismatch : Bool
deriving DecidableEq

/-- A controller response.  The error payload of `_err`
(`fetch_controller.py:43`) carries a message and a wall-clock timestamp; the
timestamp is omitted from the model. -/
inductive CtrlResponse
  | error (message : String)
  | success (data : ResultDict) (validation : Option ValidationSurface)
deriving DecidableEq

def _err (msg : String) : CtrlResponse := .error msg

/-- Lines 222-230: surface the winner's validation scores when the match was
not perfect.  The winning attempt's stored verdict is recomputed here —
`validate_lyrics_match` is pure, so the value is identical. -/
def surfaceValidation (v : Verdict) : Option ValidationSurface :=
  if v.artist_match < 1 ∨ v.song_match < 1 then
    some { artist_match := v.artist_match, song_match := v.song_match
           reason := v.reason, script_mismatch := v.script_mismatch }
  else none

/-- The parallel path of `fetch_lyrics_controller`
(`fetch_controller.py` lines 214-239). -/
def fetch_lyrics_controller_parallel (artist_name song_title : String)
    (completions : List Completion) : CtrlResponse :=
  let out := fetch_lyrics_parallel artist_name song_title completions
  match out.1 with
  | some r =>
    .success r
      (surfaceValidation (validate_lyrics_match artist_name song_title r (3/4)))
  | none =>
    let sources_with_results := (out.2.filter (fun a => a.isSuccess)).map (fun a => a.api)
    if !sources_with_results.isEmpty then
      _err ("Found results from " ++ joinSep ", " sources_with_results ++
        " but none matched \x27" ++ song_title ++ "\x27 by \x27" ++
        artist_name ++ "\x27")
    else
      _err ("No lyrics found for \x27" ++ song_title ++ "\x27 by \x27" ++
        artist_name ++ "\x27")

/-! ### Strategy resolution (`fetch_controller.py` lines 14-25 and 187-211) -/

def DEFAULT_SYNCED_SEQUENCE : List Int := [2, 3, 4]

def DEFAULT_PLAIN_SEQUENCE : List Int := [1, 2, 3, 4, 5, 6]

def FAST_MODE_SEQUENCE : List Int := [2, 3]

/-- Split on `','` (Python `str.split(",")`). -/
def splitCommaGo : List Char → List Char → List (List Char)
  | [], cur => [cur.reverse]
  | c :: cs, cur =>
    if c = ',' then cur.reverse :: splitCommaGo cs []
    else splitCommaGo cs (c :: cur)

/-- Value of a non-empty all-digit token. -/
def digitsVal (l : List Char) : Option Nat :=
  if l ≠ [] && l.all Char.isDigit then
    some (l.foldl (fun n c => n * 10 + (c.toNat - 48)) 0)
  else none

/-- Model of Python `int(token)` for a whitespace-stripped token: optional
sign followed by decimal digits. -/
def pyInt? (l : List Char) : Option Int :=
  match l with
  | '-' :: ds => (digitsVal ds).map (fun n => -(n : Int))
  | '+' :: ds => (digitsVal ds).map (fun n => (n : Int))
  | ds => (digitsVal ds).map (fun n => (n : Int))

/-- `[int(x.strip()) for x in sequence.split(",") if x.strip()]`
(`fetch_controller.py:195`); `none` models the `ValueError` path. -/
def parse_sequence (s : String) : Option (List Int) :=
  (((splitCommaGo s.data []).map stripWS).filter (fun t => !t.isEmpty)).mapM pyInt?

/-- Truthiness of the optional `sequence` argument (`pass_param and sequence`,
line 193): `None` and the empty string are falsy. -/
def sequenceTruthy : Option String → Bool
  | none => false
  | some s => s ≠ ""

/-- The sequence-validity test of `fetch_controller.py` lines 199-204: empty,
out of range 1-6, longer than the registry, or containing duplicates
(`len(ids) != len(set(ids))`, modelled by `eraseDups`). -/
def sequence_ids_invalid (fetcher_ids : List Int) : Bool :=
  fetcher_ids.isEmpty ||
    !(fetcher_ids.all (fun x => decide (1 ≤ x) && decide (x ≤ 6))) ||
    decide (6 < fetcher_ids.length) ||
    decide (fetcher_ids.length ≠ fetcher_ids.eraseDups.length)

/-- The strategy-resolution prefix of `fetch_lyrics_controller`
(`fetch_controller.py` lines 187-211): the fetcher id list to use and whether
to race in parallel, or a validation error produced before any fetch is
dispatched. -/
def resolve_fetcher_ids (timestamps pass_param fast_mode : Bool)
    (sequence : Option String) : Except String (List Int × Bool) :=
  if fast_mode then .ok (FAST_MODE_SEQUENCE, true)
  else if pass_param && sequenceTruthy sequence then
    match parse_sequence (sequence.getD "") with
    | none => .error "Invalid sequence format: must be comma-separated integers"
    | some fetcher_ids =>
      if sequence_ids_invalid fetcher_ids then
        .error "Invalid sequence: must be unique numbers between 1 and 6"
      else .ok (fetcher_ids, decide (1 < fetcher_ids.length))
  else
    .ok ((if timestamps then DEFAULT_SYNCED_SEQUENCE else DEFAULT_PLAIN_SEQUENCE),
      false)

/-- The fetcher ids for which a fetch is dispatched for a given request: none
when strategy resolution returns a validation error, otherwise the resolved
ids (all of which are registered; the registry covers ids 1-6,
`fetch_controller.py:28-36`). -/
def dispatched_fetcher_ids (timestamps pass_param fast_mode : Bool)
    (sequence : Option String) : List Int :=
  match resolve_fetcher_ids timestamps pass_param fast_mode sequence with
  | .error _ => []
  | .ok (ids, _) => ids.filter (fun i => decide (1 ≤ i) && decide (i ≤ 6))

/-! ### The claim C3 song-check formula, from the specification's words

This definition follows the *specification* (spec §4.2 step 5), not the
source, so that it can be compared with the source's `song_check`: scale the
ratio down when the returned title is more than 1.5× longer, and accept on an
extension-keyword suffix. -/

def claimC3_extensions : List String :=
  ["feat.", "ft.", "remix", "live", "acoustic", "cover", "version", "edit",
   "radio", "official", "remaster", "remastered", "bonus", "alt.",
   "instrumental", "extended", "deluxe", "explicit", "clean"]

/-- Modelled from the spec: the claimed song check — scaled similarity at or
above the song threshold, or the returned title equals the requested title
followed by a recognized extension keyword. -/
def claimC3_song_check (norm_req_song returned_song : String)
    (song_thresh : ℚ) : Bool :=
  let raw := get_similarity_ratio norm_req_song returned_song
  let scaled :=
    if (2 * returned_song.length : ℚ) > 3 * norm_req_song.length then
      raw * (1/2 + (1/2) * (norm_req_song.length : ℚ) / returned_song.length)
    else raw
  decide (song_thresh ≤ scaled) ||
    claimC3_extensions.any (fun kw => returned_song = norm_req_song ++ " " ++ kw)

/-! ### Helper notions for the race claims -/

/-- Whether a completion is a success whose result passes validation for the
given request (the condition on which the race loop accepts and cancels). -/
def raceWins (artist song : String) (c : Completion) : Bool :=
  match c.outcome with
  | .success r => (validate_lyrics_match artist song r (3/4)).valid
  | .failure _ => false

/-!
The `Rat` arithmetic operations are sealed (`@[irreducible]`) by the library;
re-open them so that concrete score computations can be settled by `decide`.
-/
unseal Rat.mul Rat.inv Rat.add Rat.sub Rat.ofScientific

set_option maxRecDepth 100000

set_option maxHeartbeats 1000000

/-! ## Claims -/

/-! ### C7 — `_has_non_latin_script` -/

/-- The characterisation of `_has_non_latin_script`: true exactly when the
non-Latin count exceeds both `1` and 20% of the length. -/
theorem has_non_latin_iff (s : String) :
    _has_non_latin_script s = true ↔
      (1 < countNonLatin s ∧
        (s.length : ℚ) * (1 / 5) < (countNonLatin s : ℚ)) := by
  rw [_has_non_latin_script]
  by_cases hs : s = ""
  · subst hs
    have h0 : countNonLatin "" = 0 := rfl
    simp [h0]
  · rw [if_neg hs, decide_eq_true_eq, max_lt_iff]
    constructor
    · rintro ⟨h1, h2⟩
      exact ⟨by exact_mod_cast h1, h2⟩
    · rintro ⟨h1, h2⟩
      exact ⟨by exact_mod_cast h1, h2⟩

/-- The non-Latin count never exceeds the length. -/
theorem countNonLatin_le (s : String) : countNonLatin s ≤ s.length :=
  List.length_filter_le _ _

/-- C7 — counterexample.  The claim says the function returns true exactly
when strictly more than 20% of the characters are non-Latin, but on `"abcя"`
one character of four (25%) is non-Latin and the function still returns false:
the source compares against `max(1, len*0.2)`, so a single non-Latin character
never suffices. -/
theorem C7_counterexample :
    _has_non_latin_script "abcя" = false ∧
      ((String.length "abcя" : ℚ) * (1 / 5) < (countNonLatin "abcя" : ℚ)) := by
  constructor
  · decide
  · have h1 : countNonLatin "abcя" = 1 := rfl
    have h2 : String.length "abcя" = 4 := rfl
    rw [h1, h2]
    norm_num

/-- C7 (amended): `_has_non_latin_script` is true exactly when strictly more
than 20% of the characters *and strictly more than one character* fall in the
non-Latin ranges; every empty or single-character string yields false. -/
theorem C7_amended :
    (∀ s : String, _has_non_latin_script s = true ↔
      (1 < countNonLatin s ∧
        (s.length : ℚ) * (1 / 5) < (countNonLatin s : ℚ))) ∧
    (∀ s : String, s.length ≤ 1 → _has_non_latin_script s = false) := by
  refine ⟨has_non_latin_iff, ?_⟩
  intro s h
  cases hb : _has_non_latin_script s with
  | false => rfl
  | true =>
    exfalso
    have := (has_non_latin_iff s).mp hb
    have hc := countNonLatin_le s
    omega

/-- C7 — witness. -/
theorem C7_witness :
    _has_non_latin_script "ਨਸ" = true ∧ _has_non_latin_script "я" = false := by
  constructor
  · refine (C7_amended.1 "ਨਸ").mpr ⟨by decide, ?_⟩
    have h1 : countNonLatin "ਨਸ" = 2 := rfl
    have h2 : String.length "ਨਸ" = 2 := rfl
    rw [h1, h2]
    norm_num
  · exact C7_amended.2 "я" (by decide)

/-! ### C5 — adaptive thresholds -/

/-- C5 — counterexample.  The claim asserts that the 5-character request
"Nasha" against the one-character edit "Nasza" "fails the base 0.75" and only
passes thanks to the lowered threshold; in fact the longest-matching-block
similarity is 0.8, which meets the base 0.75 as well. -/
theorem C5_counterexample :
    get_similarity_ratio "Nasha" "Nasza" = 4 / 5 ∧
      ¬(get_similarity_ratio "Nasha" "Nasza" < 3 / 4) := by
  constructor
  · decide
  · decide

/-- C5 (amended): the adaptive threshold equals `max(0.40, base − 0.35)` for
normalized length ≤ 4, `max(0.50, base − 0.20)` for length ≤ 6,
`max(0.60, base − 0.10)` for length ≤ 10, and `base` otherwise — computed on
each input string independently; the 5-character "Nasha" gets threshold 0.55
at base 0.75, and "Nasha" vs "Nasza" (similarity 0.8, which also meets the
base 0.75) validates. -/
theorem C5_amended :
    (∀ (text : String) (base : ℚ),
      ((normalize_string text).length ≤ 4 →
        _adaptive_threshold text base = max (2/5) (base - 7/20)) ∧
      (4 < (normalize_string text).length → (normalize_string text).length ≤ 6 →
        _adaptive_threshold text base = max (1/2) (base - 1/5)) ∧
      (6 < (normalize_string text).length → (normalize_string text).length ≤ 10 →
        _adaptive_threshold text base = max (3/5) (base - 1/10)) ∧
      (10 < (normalize_string text).length → _adaptive_threshold text base = base)) ∧
    _adaptive_threshold "Nasha" (3/4) = 11/20 ∧
    (validate_lyrics_match "Talwiinder" "Nasha"
      { artist := some (.str "Talwiinder"), title := some "Nasza" }
      (3/4)).valid = true := by
  refine ⟨?_, by decide, by decide⟩
  intro text base
  refine ⟨?_, ?_, ?_, ?_⟩
  · intro h
    simp only [_adaptive_threshold]
    rw [if_pos h]
  · intro h4 h6
    simp only [_adaptive_threshold]
    rw [if_neg (by omega), if_pos h6]
  · intro h6 h10
    simp only [_adaptive_threshold]
    rw [if_neg (by omega), if_neg (by omega), if_pos h10]
  · intro h10
    simp only [_adaptive_threshold]
    rw [if_neg (by omega), if_neg (by omega), if_neg (by omega)]

/-- C5 — witness. -/
theorem C5_witness :
    (normalize_string "abc").length ≤ 4 ∧
      _adaptive_threshold "abc" (3/4) = max (2/5) ((3/4) - 7/20) :=
  ⟨by decide, (C5_amended.1 "abc" (3/4)).1 (by decide)⟩

/-! ### C8 — custom-sequence validation -/

/-- C8 — counterexample.  The claim says a supplied custom sequence whose
parsed id list is empty is rejected with a typed validation error before any
fetch.  The empty string parses to the empty id list, yet `pass_param and
sequence` is falsy for it, so the controller silently falls through to the
default sequential strategy and dispatches all six fetchers. -/
theorem C8_counterexample :
    parse_sequence "" = some [] ∧
    resolve_fetcher_ids false true false (some "") =
      .ok (DEFAULT_PLAIN_SEQUENCE, false) ∧
    dispatched_fetcher_ids false true false (some "") = [1, 2, 3, 4, 5, 6] :=
  ⟨rfl, rfl, rfl⟩

/-- C8 (amended): for every *non-empty* custom sequence string (with the
pass flag set and fast mode off), a parse failure or an invalid id list —
empty, out of the registered range 1..6, duplicated ids, or more ids than the
registry — returns the typed validation error and no fetch is dispatched; the
empty string instead falls through to the default strategy. -/
theorem C8_amended (ts : Bool) (s : String) (h : s ≠ "") :
    (parse_sequence s = none →
      resolve_fetcher_ids ts true false (some s) =
        .error "Invalid sequence format: must be comma-separated integers" ∧
      dispatched_fetcher_ids ts true false (some s) = []) ∧
    (∀ ids, parse_sequence s = some ids → sequence_ids_invalid ids = true →
      resolve_fetcher_ids ts true false (some s) =
        .error "Invalid sequence: must be unique numbers between 1 and 6" ∧
      dispatched_fetcher_ids ts true false (some s) = []) := by
  have htr : sequenceTruthy (some s) = true := by
    simp [sequenceTruthy, h]
  constructor
  · intro hp
    have : resolve_fetcher_ids ts true false (some s) =
        .error "Invalid sequence format: must be comma-separated integers" := by
      simp only [resolve_fetcher_ids, htr, hp, Bool.false_eq_true, if_false,
        Bool.and_true, Bool.true_and, if_true, Option.getD_some]
    exact ⟨this, by simp only [dispatched_fetcher_ids, this]⟩
  · intro ids hp hinv
    have : resolve_fetcher_ids ts true false (some s) =
        .error "Invalid sequence: must be unique numbers between 1 and 6" := by
      simp only [resolve_fetcher_ids, htr, hp, hinv, Bool.false_eq_true, if_false,
        Bool.and_true, Bool.true_and, if_true, Option.getD_some]
    exact ⟨this, by simp only [dispatched_fetcher_ids, this]⟩

/-- C8 — witness: `"1,1,2"` (duplicate) and `"7"` (out of range) are both
rejected before any dispatch. -/
theorem C8_witness :
    resolve_fetcher_ids false true false (some "1,1,2") =
      .error "Invalid sequence: must be unique numbers between 1 and 6" ∧
    dispatched_fetcher_ids false true false (some "1,1,2") = [] ∧
    resolve_fetcher_ids false true false (some "7") =
      .error "Invalid sequence: must be unique numbers between 1 and 6" :=
  ⟨((C8_amended false "1,1,2" (by decide)).2 [1, 1, 2] rfl rfl).1,
   ((C8_amended false "1,1,2" (by decide)).2 [1, 1, 2] rfl rfl).2,
   ((C8_amended false "7" (by decide)).2 [7] rfl rfl).1⟩

/-! ### C9 — strategy selection -/

/-- C9: fast mode always resolves to the fixed fast id set raced in parallel;
a valid explicit custom sequence races in parallel exactly when it has more
than one id and runs sequentially with exactly one; with no custom sequence
the default list — picked by the timestamps flag — runs sequentially. -/
theorem C9_strategy_selection (ts pass fast : Bool) (seq : Option String) :
    (fast = true →
      resolve_fetcher_ids ts pass fast seq = .ok (FAST_MODE_SEQUENCE, true)) ∧
    (∀ s ids, fast = false → pass = true → seq = some s → s ≠ "" →
      parse_sequence s = some ids → sequence_ids_invalid ids = false →
      (1 < ids.length →
        resolve_fetcher_ids ts pass fast seq = .ok (ids, true)) ∧
      (ids.length = 1 →
        resolve_fetcher_ids ts pass fast seq = .ok (ids, false))) ∧
    (fast = false → (pass = false ∨ seq = none ∨ seq = some "") →
      resolve_fetcher_ids ts pass fast seq =
        .ok ((if ts then DEFAULT_SYNCED_SEQUENCE else DEFAULT_PLAIN_SEQUENCE),
          false)) := by
  refine ⟨?_, ?_, ?_⟩
  · intro hf
    subst hf
    simp [resolve_fetcher_ids]
  · intro s ids hf hp hs hne hparse hinv
    subst hf
    subst hp
    subst hs
    have htr : sequenceTruthy (some s) = true := by
      simp [sequenceTruthy, hne]
    constructor
    · intro hlen
      simp only [resolve_fetcher_ids, htr, hparse, hinv, Bool.false_eq_true,
        if_false, if_true, Bool.true_and, Option.getD_some, decide_eq_true hlen]
    · intro hlen
      have : decide (1 < ids.length) = false := by
        rw [hlen]
        decide
      simp only [resolve_fetcher_ids, htr, hparse, hinv, Bool.false_eq_true,
        if_false, if_true, Bool.true_and, Option.getD_some, this]
  · intro hf hcase
    subst hf
    have : (pass && sequenceTruthy seq) = false := by
      rcases hcase with h | h | h
      · simp [h]
      · simp [h, sequenceTruthy]
      · simp [h, sequenceTruthy]
    simp [resolve_fetcher_ids, this]

/-- C9 — witness: fast mode races `[2, 3]`; `"3,1"` races `[3, 1]` in
parallel; `"4"` runs `[4]` sequentially; the timestamped default is
`[2, 3, 4]` run sequentially. -/
theorem C9_witness :
    resolve_fetcher_ids false false true none = .ok ([2, 3], true) ∧
    resolve_fetcher_ids false true false (some "3,1") = .ok ([3, 1], true) ∧
    resolve_fetcher_ids false true false (some "4") = .ok ([4], false) ∧
    resolve_fetcher_ids true false false none = .ok ([2, 3, 4], false) := by
  refine ⟨?_, ?_, ?_, ?_⟩
  · exact (C9_strategy_selection false false true none).1 rfl
  · exact ((C9_strategy_selection false true false (some "3,1")).2.1 "3,1" [3, 1] rfl rfl
      rfl (by decide) rfl rfl).1 (by decide)
  · exact ((C9_strategy_selection false true false (some "4")).2.1 "4" [4] rfl rfl
      rfl (by decide) rfl rfl).2 rfl
  · exact (C9_strategy_selection true false false none).2.2 rfl (Or.inl rfl)

/-! ### C6 — script-mismatch bypass -/

/-- `round(1.0, 3) = 1.0`. -/
theorem round3_one : round3 1 = 1 := by decide

/-- C6: whenever the candidate has a non-empty returned title whose normalized
form is not script-compatible with the normalized requested song, the verdict
is an acceptance with both scores 1.0 and `script_mismatch = true` — the
similarity machinery is bypassed. -/
theorem C6_script_bypass (ra rs : String) (cand : ResultDict) (θ : ℚ)
    (h1 : (extract_artist_song_from_result cand).2 ≠ "")
    (h2 : _scripts_compatible (normalize_string rs)
      (extract_artist_song_from_result cand).2 = false) :
    validate_lyrics_match ra rs cand θ =
      { valid := true
        reason := "Cross-script match — similarity bypassed"
        artist_match := 1
        song_match := 1
        returned_artists := (extract_artist_song_from_result cand).1
        returned_song := (extract_artist_song_from_result cand).2
        script_mismatch := true } := by
  simp [validate_lyrics_match, _accept, h2, if_neg h1, round3_one]

/-- C6 — witness: the specification's own scenario, request
("Talwiinder", "Nasha") against a Gurmukhi-script candidate. -/
theorem C6_witness :
    validate_lyrics_match "Talwiinder" "Nasha"
      { artist := some (.str "ਤਲਵ"), title := some "ਨਸ" } (3/4) =
      { valid := true
        reason := "Cross-script match — similarity bypassed"
        artist_match := 1
        song_match := 1
        returned_artists := ["ਤਲਵ"]
        returned_song := "ਨਸ"
        script_mismatch := true } :=
  (C6_script_bypass "Talwiinder" "Nasha"
    { artist := some (.str "ਤਲਵ"), title := some "ਨਸ" } (3/4)
    (by decide) (by decide)).trans (by decide)

/-! ### C3 — the song check -/

/-- C3 — counterexample.  The claim describes a song check with a length-ratio
scaling factor and an extension-keyword whitelist; the source has neither — it
accepts whenever the unscaled ratio meets the threshold *or* the normalized
requested title (≥ 3 chars) is a substring of the returned title.  On
requested "abc" vs returned "abc extra words here" the source's check accepts
(substring) while the claimed formula rejects (scaled ratio
(6/23)·(23/40) = 0.15 < 0.40, and the suffix "extra words here" is no
recognized keyword), and the full validator indeed accepts. -/
theorem C3_counterexample :
    song_check "abc" "abc extra words here" (_adaptive_threshold "abc" (3/4)) = true ∧
    claimC3_song_check "abc" "abc extra words here"
      (_adaptive_threshold "abc" (3/4)) = false ∧
    (validate_lyrics_match "someone" "abc"
      { artist := some (.str "someone"), title := some "ABC extra words here" }
      (3/4)).valid = true := by
  refine ⟨by decide, by decide, by decide⟩

/-- C3 (amended): on the scoring path (non-empty returned title, scripts
compatible), the verdict is valid exactly when the artist stage finds a match
and the source's song check passes — where the song check accepts exactly when
the similarity ratio is at least the song threshold or the normalized
requested title (at least 3 characters) is a substring of the returned title;
there is no length-ratio scaling and no extension-keyword rule. -/
theorem C3_amended (ra rs : String) (cand : ResultDict) (θ : ℚ)
    (h1 : (extract_artist_song_from_result cand).2 ≠ "")
    (h2 : _scripts_compatible (normalize_string rs)
      (extract_artist_song_from_result cand).2 = true)
    (h3 : artist_scripts_chk (split_artists ra)
      (extract_artist_song_from_result cand).1 = true) :
    (validate_lyrics_match ra rs cand θ).valid =
      ((validate_artist_stage ra (split_artists ra)
          (extract_artist_song_from_result cand).1
          (extract_artist_song_from_result cand).2
          (_adaptive_threshold ra θ)
          (song_contained_chk (normalize_string rs)
            (extract_artist_song_from_result cand).2)
          (get_similarity_ratio (normalize_string rs)
            (extract_artist_song_from_result cand).2)).1 &&
        song_check (normalize_string rs) (extract_artist_song_from_result cand).2
          (_adaptive_threshold rs θ)) := by
  simp only [validate_lyrics_match, h2, h3, if_neg h1, Bool.not_true,
    Bool.or_self, Bool.false_eq_true, if_false]
  split
  · rename_i hcond
    simp [_accept, hcond]
  · rename_i hcond
    simp only [Bool.not_eq_true] at hcond
    simp [hcond]

/-- C3 — witness. -/
theorem C3_witness :
    (validate_lyrics_match "someone" "abc"
      { artist := some (.str "someone"), title := some "ABC extra words here" }
      (3/4)).valid =
      ((validate_artist_stage "someone" (split_artists "someone")
          ["someone"] "abc extra words here" (_adaptive_threshold "someone" (3/4))
          (song_contained_chk "abc" "abc extra words here")
          (get_similarity_ratio "abc" "abc extra words here")).1 &&
        song_check "abc" "abc extra words here"
          (_adaptive_threshold "abc" (3/4))) :=
  (C3_amended "someone" "abc"
    { artist := some (.str "someone"), title := some "ABC extra words here" }
    (3/4) (by decide) (by decide) (by decide)).trans (by decide)

/-! ### C4 — the extension-collab rule (check E) -/

/-- C4 — counterexample.  The claim says rule e accepts only when the best
pairwise artist similarity is at least 0.20; the source's check E has no
similarity floor at all: requested ("Post Malone", "Rockstar") against a
candidate with artist "Zzz" (similarity 0.0) and title "Rockstar live" is
accepted via check E with `artist_match = 0`. -/
theorem C4_counterexample :
    (validate_lyrics_match "Post Malone" "Rockstar"
      { artist := some (.str "Zzz"), title := some "Rockstar live" }
      (3/4)).valid = true ∧
    (validate_lyrics_match "Post Malone" "Rockstar"
      { artist := some (.str "Zzz"), title := some "Rockstar live" }
      (3/4)).reason =
      "Matched via Song title confirms identity — collab accepted" ∧
    (validate_lyrics_match "Post Malone" "Rockstar"
      { artist := some (.str "Zzz"), title := some "Rockstar live" }
      (3/4)).artist_match = 0 := by
  refine ⟨by decide, by decide, by decide⟩

/-- C4 (amended): when checks a–d all fail for the first requested artist,
check E accepts as soon as the requested title is contained in the returned
title or the song similarity is at least 0.80 — with no condition whatsoever
on the best pairwise artist similarity (in particular also below 0.20). -/
theorem C4_amended (artist_thresh song_sim : ℚ) (returned_artists : List String)
    (returned_song raw_returned norm_req_full : String) (song_contained : Bool)
    (req : String) (rest : List String) (best : ℚ)
    (hA : returned_artists.any
      (fun ret => decide (artist_thresh ≤ get_similarity_ratio req ret)) = false)
    (hB : (decide (3 ≤ req.length) && strContains raw_returned.data req.data) = false)
    (hC : (decide (3 ≤ req.length) && strContains returned_song.data req.data) = false)
    (hD : returned_artists.any (fun ret => decide (3 ≤ ret.length) &&
      strContains norm_req_full.data ret.data) = false)
    (hE : song_contained = true ∨ (4/5 : ℚ) ≤ song_sim) :
    (artistLoop artist_thresh returned_artists returned_song raw_returned
      norm_req_full song_contained song_sim (req :: rest) best).1 = true := by
  have hE2 : (song_contained || decide ((4/5 : ℚ) ≤ song_sim)) = true := by
    rcases hE with h | h
    · simp [h]
    · simp [h]
  simp only [artistLoop, hA, hB, hC, hD, hE2, Bool.false_eq_true, if_false,
    if_true]

/-- C4 — witness: the loop state of the Post Malone counterexample, where the
best pairwise similarity is 0. -/
theorem C4_witness :
    (artistLoop (3/4) ["zzz"] "rockstar live" "zzz" "post malone" true
      (get_similarity_ratio "rockstar" "rockstar live") ["post malone"] 0).1 =
      true :=
  C4_amended (3/4) (get_similarity_ratio "rockstar" "rockstar live") ["zzz"]
    "rockstar live" "zzz" "post malone" true "post malone" [] 0
    (by decide) (by decide) (by decide) (by decide) (Or.inl rfl)

/-! ### C1 — validate-before-cancel in the parallel race -/

/-- If no completion in the list is a validated success, the race loop
consumes every completion (no task is ever cancelled) and returns no winner
together with the full attempt list. -/
theorem raceLoop_all_lose (valid : ResultDict → Bool) :
    ∀ (comps acc : List Completion),
      (∀ c ∈ comps, ∀ r, c.outcome = .success r → valid r = false) →
      raceLoop valid comps acc = (none, acc ++ comps) := by
  intro comps
  induction comps with
  | nil =>
    intro acc _
    simp [raceLoop]
  | cons c rest ih =>
    intro acc h
    have hrest : ∀ x ∈ rest, ∀ r, x.outcome = .success r → valid r = false :=
      fun x hx => h x (List.mem_cons_of_mem c hx)
    match hc : c.outcome with
    | .failure reason =>
      rw [raceLoop, hc]
      simp [ih (acc ++ [c]) hrest]
    | .success r =>
      have hv : valid r = false := h c (List.mem_cons_self c rest) r hc
      rw [raceLoop, hc]
      simp [hv, ih (acc ++ [c]) hrest]

/-- If every completion before `c` is not a validated success and `c` is one,
the race loop stops exactly at `c`: the completions after `c` (the still
pending tasks) are cancelled unobserved, and the winner is returned together
with the attempts recorded so far. -/
theorem raceLoop_first_win (valid : ResultDict → Bool) :
    ∀ (pre : List Completion) (acc : List Completion) (c : Completion)
      (post : List Completion) (r : ResultDict),
      (∀ x ∈ pre, ∀ s, x.outcome = .success s → valid s = false) →
      c.outcome = .success r → valid r = true →
      raceLoop valid (pre ++ c :: post) acc = (some r, acc ++ pre ++ [c]) := by
  intro pre
  induction pre with
  | nil =>
    intro acc c post r _ hc hv
    rw [List.nil_append, raceLoop, hc]
    simp [hv]
  | cons x xs ih =>
    intro acc c post r h hc hv
    have hxs : ∀ y ∈ xs, ∀ s, y.outcome = .success s → valid s = false :=
      fun y hy => h y (List.mem_cons_of_mem x hy)
    match hx : x.outcome with
    | .failure reason =>
      rw [List.cons_append, raceLoop, hx]
      simp [ih (acc ++ [x]) c post r hxs hc hv]
    | .success s =>
      have hs : valid s = false := h x (List.mem_cons_self x xs) s hx
      rw [List.cons_append, raceLoop, hx]
      simp [hs, ih (acc ++ [x]) c post r hxs hc hv]

/-- Converting the `raceWins` record to the raw validation fact. -/
theorem raceWins_false_elim (artist song : String) (c : Completion)
    (h : raceWins artist song c = false) :
    ∀ r, c.outcome = .success r →
      (validate_lyrics_match artist song r (3/4)).valid = false := by
  intro r hr
  rw [raceWins, hr] at h
  exact h

/-- C1: in the parallel race, a completed success that fails validation never
cancels the pending tasks — the loop keeps consuming completions — and the
first completion (in completion order) whose successful result passes
validation is returned as the winner together with exactly the attempts
accumulated so far; when no completion validates, every dispatched task runs
to completion and is recorded.  A wrong early answer therefore never preempts
a later-arriving valid one. -/
theorem C1_race_first_valid_wins (artist song : String) :
    (∀ comps : List Completion,
      (∀ c ∈ comps, raceWins artist song c = false) →
      fetch_lyrics_parallel artist song comps = (none, comps)) ∧
    (∀ (pre post : List Completion) (c : Completion) (r : ResultDict),
      (∀ x ∈ pre, raceWins artist song x = false) →
      c.outcome = .success r →
      (validate_lyrics_match artist song r (3/4)).valid = true →
      fetch_lyrics_parallel artist song (pre ++ c :: post) =
        (some r, pre ++ [c])) := by
  constructor
  · intro comps h
    have h2 := fun c hc => raceWins_false_elim artist song c (h c hc)
    have := raceLoop_all_lose
      (fun r => (validate_lyrics_match artist song r (3/4)).valid) comps [] h2
    simpa [fetch_lyrics_parallel] using this
  · intro pre post c r h hc hv
    have h2 := fun x hx => raceWins_false_elim artist song x (h x hx)
    have := raceLoop_first_win
      (fun r => (validate_lyrics_match artist song r (3/4)).valid)
      pre [] c post r h2 hc hv
    simpa [fetch_lyrics_parallel] using this

/-- C1 — witness: the specification's race scenario.  LRCLIB completes first
with the wrong "Shape of You" (success, fails validation) and does not stop
the race; SimpMusic completes later with the correct Gurmukhi result and
wins, with both attempts on record. -/
theorem C1_witness :
    fetch_lyrics_parallel "Various" "Nasha"
      [⟨"LRCLIB", .success
          { artist := some (.str "Ed Sheeran"), title := some "Shape of You" }⟩,
       ⟨"SimpMusic", .success
          { artist := some (.str "ਤਲਵ"), title := some "ਨਸ" }⟩] =
      (some { artist := some (.str "ਤਲਵ"), title := some "ਨਸ" },
       [⟨"LRCLIB", .success
          { artist := some (.str "Ed Sheeran"), title := some "Shape of You" }⟩,
        ⟨"SimpMusic", .success
          { artist := some (.str "ਤਲਵ"), title := some "ਨਸ" }⟩]) :=
  (C1_race_first_valid_wins "Various" "Nasha").2
    [⟨"LRCLIB", .success
        { artist := some (.str "Ed Sheeran"), title := some "Shape of You" }⟩]
    []
    ⟨"SimpMusic", .success { artist := some (.str "ਤਲਵ"), title := some "ਨਸ" }⟩
    { artist := some (.str "ਤਲਵ"), title := some "ਨਸ" }
    (by decide) rfl (by decide)

/-! ### C2 — the exhausted error response -/

/-- C2 — counterexample.  A run in which LRCLIB times out and Genius returns
a success that fails validation ends exhausted; the user-visible response is
an error whose only content is a message naming Genius — the dispatched
LRCLIB attempt is represented nowhere in the response, so the attempt log is
not included with every attempt represented exactly once. -/
theorem C2_counterexample :
    fetch_lyrics_controller_parallel "Various" "Nasha"
      [⟨"LRCLIB", .failure "timeout"⟩,
       ⟨"Genius", .success
          { artist := some (.str "Ed Sheeran"), title := some "Shape of You" }⟩] =
      .error "Found results from Genius but none matched \x27Nasha\x27 by \x27Various\x27" ∧
    strContains
      "Found results from Genius but none matched \x27Nasha\x27 by \x27Various\x27".data
      "LRCLIB".data = false := by
  refine ⟨by decide, by decide⟩

/-- C2 (amended): when the parallel race exhausts without a valid result, the
controller's user-visible response is an error carrying only a message (plus
a timestamp): it names exactly the providers whose attempts were successful
but unvalidated — in completion order, one entry per such attempt — when
there are any, and is a generic not-found message otherwise; the structured
attempt log itself is not part of the response. -/
theorem C2_amended (artist song : String) (comps : List Completion)
    (h : ∀ c ∈ comps, raceWins artist song c = false) :
    fetch_lyrics_controller_parallel artist song comps =
      (if (comps.filter (fun a => a.isSuccess)).isEmpty then
        _err ("No lyrics found for \x27" ++ song ++ "\x27 by \x27" ++
          artist ++ "\x27")
      else
        _err ("Found results from " ++
          joinSep ", " ((comps.filter (fun a => a.isSuccess)).map (fun a => a.api)) ++
          " but none matched \x27" ++ song ++ "\x27 by \x27" ++ artist ++ "\x27")) := by
  have h2 := fun c hc => raceWins_false_elim artist song c (h c hc)
  have hrace : fetch_lyrics_parallel artist song comps = (none, comps) := by
    simpa [fetch_lyrics_parallel] using raceLoop_all_lose
      (fun r => (validate_lyrics_match artist song r (3/4)).valid) comps [] h2
  have hm : ∀ l : List Completion,
      (l.map (fun a => a.api)).isEmpty = l.isEmpty := by
    intro l
    cases l
    · rfl
    · rfl
  cases he : (comps.filter (fun a => a.isSuccess)).isEmpty with
  | true =>
    simp only [fetch_lyrics_controller_parallel, hrace, hm, he, if_true,
      Bool.not_true, Bool.false_eq_true, if_false]
  | false =>
    simp only [fetch_lyrics_controller_parallel, hrace, hm, he, Bool.not_false,
      Bool.false_eq_true, if_false, if_true]

/-- C2 — witness: a single timed-out fetcher yields the generic not-found
error. -/
theorem C2_witness :
    fetch_lyrics_controller_parallel "Artist" "Song"
      [⟨"LRCLIB", .failure "timeout"⟩] =
      .error ("No lyrics found for \x27Song\x27 by \x27Artist\x27") :=
  (C2_amended "Artist" "Song" [⟨"LRCLIB", .failure "timeout"⟩]
    (by decide)).trans (by decide)

/-! ### C10 — well-formedness of every verdict -/

/-- A matching run is no longer than either suffix. -/
theorem matchLen_le : ∀ xs ys : List Char,
    matchLen xs ys ≤ min xs.length ys.length := by
  intro xs
  induction xs with
  | nil => intro ys; simp [matchLen]
  | cons x xs ih =>
    intro ys
    cases ys with
    | nil => simp [matchLen]
    | cons y ys =>
      rw [matchLen]
      by_cases h : x = y
      · rw [if_pos h]
        have := ih ys
        simp only [List.length_cons]
        omega
      · rw [if_neg h]
        omega

/-- The fold of `pickBest` yields the initial value or a list element. -/
theorem pickBest_cases (l : List (Nat × Nat × Nat)) :
    pickBest l = (0, 0, 0) ∨ pickBest l ∈ l := by
  have key : ∀ (l : List (Nat × Nat × Nat)) (init : Nat × Nat × Nat),
      l.foldl (fun best c => if best.2.2 < c.2.2 then c else best) init = init ∨
        l.foldl (fun best c => if best.2.2 < c.2.2 then c else best) init ∈ l := by
    intro l
    induction l with
    | nil => intro init; left; rfl
    | cons c rest ih =>
      intro init
      rw [List.foldl_cons]
      rcases ih (if init.2.2 < c.2.2 then c else init) with h | h
      · rw [h]
        by_cases hc : init.2.2 < c.2.2
        · right
          rw [if_pos hc]
          exact List.mem_cons_self c rest
        · left
          rw [if_neg hc]
      · right
        exact List.mem_cons_of_mem c h
  exact key l (0, 0, 0)

/-- Membership in the candidate list pins down the block shape. -/
theorem flmCandidates_mem (a b : List Char) (i j k : Nat)
    (h : (i, j, k) ∈ flmCandidates a b) :
    i < a.length ∧ j < b.length ∧ k = matchLen (a.drop i) (b.drop j) := by
  simp only [flmCandidates, List.mem_flatMap, List.mem_map, List.mem_range] at h
  obtain ⟨i', hi', j', hj', heq⟩ := h
  obtain ⟨h1, h2, h3⟩ := Prod.mk.injEq .. ▸ heq
  · exact ⟨h1 ▸ hi', by cases heq; exact ⟨hj', rfl⟩⟩

/-- The selected longest match is an in-window block. -/
theorem find_longest_match_spec (a b : List Char) (i j k : Nat)
    (hf : find_longest_match a b = (i, j, k)) (hk : k ≠ 0) :
    i < a.length ∧ j < b.length ∧
      k ≤ min (a.length - i) (b.length - j) := by
  rcases pickBest_cases (flmCandidates a b) with h | h
  · rw [find_longest_match] at hf
    rw [hf] at h
    cases h
    exact absurd rfl hk
  · rw [find_longest_match] at hf
    rw [hf] at h
    obtain ⟨h1, h2, h3⟩ := flmCandidates_mem a b i j k h
    refine ⟨h1, h2, ?_⟩
    have := matchLen_le (a.drop i) (b.drop j)
    simpa [List.length_drop, h3] using this

/-- The matching-block total is at most the shorter length. -/
theorem matchTotalF_le : ∀ (fuel : Nat) (a b : List Char),
    matchTotalF fuel a b ≤ min a.length b.length := by
  intro fuel
  induction fuel with
  | zero => intro a b; simp [matchTotalF]
  | succ fuel ih =>
    intro a b
    rw [matchTotalF]
    rcases hf : find_longest_match a b with ⟨i, j, k⟩
    simp only [hf]
    by_cases hk : k = 0
    · rw [if_pos hk]
      omega
    · rw [if_neg hk]
      obtain ⟨h1, h2, h3⟩ := find_longest_match_spec a b i j k hf hk
      have t1 := ih (a.take i) (b.take j)
      have t2 := ih (a.drop (i + k)) (b.drop (j + k))
      simp only [List.length_take, List.length_drop] at t1 t2
      omega

/-- `ratio` is between 0 and 1. -/
theorem seqRatio_bounds (a b : List Char) :
    0 ≤ seqRatio a b ∧ seqRatio a b ≤ 1 := by
  rw [seqRatio]
  by_cases h : a.length + b.length = 0
  · rw [if_pos h]
    norm_num
  · rw [if_neg h]
    have hM := matchTotalF_le a.length a b
    rw [show matchTotalF a.length a b = matchTotal a b from rfl] at hM
    have hpos : (0 : ℚ) < (a.length + b.length : ℚ) := by
      have : 0 < a.length + b.length := Nat.pos_of_ne_zero h
      exact_mod_cast this
    constructor
    · positivity
    · rw [div_le_one hpos]
      have : 2 * matchTotal a b ≤ a.length + b.length := by omega
      exact_mod_cast this

/-- `get_similarity_ratio` is between 0 and 1. -/
theorem get_similarity_ratio_bounds (s t : String) :
    0 ≤ get_similarity_ratio s t ∧ get_similarity_ratio s t ≤ 1 := by
  rw [get_similarity_ratio]
  by_cases h : (normalize_string s = "" || normalize_string t = "") = true
  · rw [if_pos h]
    norm_num
  · rw [if_neg h]
    exact seqRatio_bounds _ _

/-- The pairwise-best fold keeps the score in `[0, 1]`. -/
theorem best_fold_bounds (req : String) :
    ∀ (rets : List String) (b : ℚ), 0 ≤ b → b ≤ 1 →
      0 ≤ rets.foldl (fun b ret => max b (get_similarity_ratio req ret)) b ∧
        rets.foldl (fun b ret => max b (get_similarity_ratio req ret)) b ≤ 1 := by
  intro rets
  induction rets with
  | nil => intro b h0 h1; exact ⟨h0, h1⟩
  | cons r rest ih =>
    intro b h0 h1
    rw [List.foldl_cons]
    have hr := get_similarity_ratio_bounds req r
    exact ih _ (le_max_of_le_left h0) (max_le h1 hr.2)

/-- The artist loop keeps the best score in `[0, 1]`. -/
theorem artistLoop_best_bounds (artist_thresh : ℚ) (returned_artists : List String)
    (returned_song raw_returned norm_req_full : String) (song_contained : Bool)
    (song_sim : ℚ) :
    ∀ (reqs : List String) (best : ℚ), 0 ≤ best → best ≤ 1 →
      0 ≤ (artistLoop artist_thresh returned_artists returned_song raw_returned
          norm_req_full song_contained song_sim reqs best).2.1 ∧
        (artistLoop artist_thresh returned_artists returned_song raw_returned
          norm_req_full song_contained song_sim reqs best).2.1 ≤ 1 := by
  intro reqs
  induction reqs with
  | nil => intro best h0 h1; exact ⟨h0, h1⟩
  | cons req rest ih =>
    intro best h0 h1
    rw [artistLoop]
    have hb := best_fold_bounds req returned_artists best h0 h1
    split
    · exact hb
    · split
      · exact hb
      · split
        · exact hb
        · split
          · exact hb
          · split
            · exact hb
            · exact ih _ hb.1 hb.2

/-- The artist stage keeps the best score in `[0, 1]`. -/
theorem validate_artist_stage_bounds (requested_artist : String)
    (requested_artists returned_artists : List String) (returned_song : String)
    (artist_thresh : ℚ) (song_contained : Bool) (song_sim : ℚ) :
    0 ≤ (validate_artist_stage requested_artist requested_artists
        returned_artists returned_song artist_thresh song_contained
        song_sim).2.1 ∧
      (validate_artist_stage requested_artist requested_artists
        returned_artists returned_song artist_thresh song_contained
        song_sim).2.1 ≤ 1 := by
  rw [validate_artist_stage]
  split
  · norm_num
  · exact artistLoop_best_bounds _ _ _ _ _ _ _ _ 0 le_rfl (by norm_num)

/-- Half-even rounding stays within `[0, 1000]` for inputs in `[0, 1000]`. -/
theorem roundHalfEven_bounds (y : ℚ) (h0 : 0 ≤ y) (h1 : y ≤ 1000) :
    0 ≤ roundHalfEven y ∧ roundHalfEven y ≤ 1000 := by
  rw [roundHalfEven]
  have hf0 : 0 ≤ ⌊y⌋ := by
    rw [Int.le_floor]
    exact_mod_cast h0
  have hfle : (⌊y⌋ : ℚ) ≤ y := Int.floor_le y
  have hf1000 : ⌊y⌋ ≤ 1000 := by
    have : (⌊y⌋ : ℚ) ≤ 1000 := le_trans hfle h1
    exact_mod_cast this
  split
  · exact ⟨hf0, hf1000⟩
  · rename_i hlt
    push_neg at hlt
    have h999 : ⌊y⌋ ≤ 999 := by
      have : (⌊y⌋ : ℚ) + 1/2 ≤ y := by linarith
      have : (⌊y⌋ : ℚ) < 1000 := by linarith
      have : ⌊y⌋ < 1000 := by exact_mod_cast this
      omega
    split
    · omega
    · split
      · omega
      · omega

/-- `round(x, 3)` of a score in `[0, 1]` is `k/1000` for some `k ≤ 1000`. -/
theorem round3_mem (x : ℚ) (h0 : 0 ≤ x) (h1 : x ≤ 1) :
    ∃ k : ℕ, k ≤ 1000 ∧ round3 x = (k : ℚ) / 1000 := by
  have hb := roundHalfEven_bounds (x * 1000) (by positivity) (by linarith)
  refine ⟨(roundHalfEven (x * 1000)).toNat, ?_, ?_⟩
  · omega
  · rw [round3]
    congr 1
    exact_mod_cast (Int.toNat_of_nonneg hb.1).symm

/-- The dedup loop produces a duplicate-free list of non-empty normalizer
outputs (given an accumulator with the same property). -/
theorem normDedupGo_spec : ∀ (l acc : List String),
    acc.Nodup → (∀ x ∈ acc, x ≠ "" ∧ ∃ t, x = normalize_string t) →
    (normDedupGo l acc).Nodup ∧
      ∀ x ∈ normDedupGo l acc, x ≠ "" ∧ ∃ t, x = normalize_string t := by
  intro l
  induction l with
  | nil =>
    intro acc hnd hP
    rw [normDedupGo]
    exact ⟨List.nodup_reverse.mpr hnd, fun x hx => hP x (List.mem_reverse.mp hx)⟩
  | cons a rest ih =>
    intro acc hnd hP
    rw [normDedupGo]
    split
    · rename_i hcond
      simp only [Bool.and_eq_true, Bool.not_eq_true', decide_eq_true_eq] at hcond
      obtain ⟨hne, hnm⟩ := hcond
      have hnotmem : normalize_string a ∉ acc := by
        intro hmem
        rw [List.contains, List.elem_eq_mem, decide_eq_false_iff_not] at hnm
        exact hnm hmem
      refine ih (normalize_string a :: acc) (List.Nodup.cons hnotmem hnd) ?_
      intro x hx
      rcases List.mem_cons.mp hx with h | h
      · exact h ▸ ⟨hne, a, rfl⟩
      · exact hP x h
    · exact ih acc hnd hP

/-- `normDedup` yields a duplicate-free list of non-empty normalizer
outputs. -/
theorem normDedup_spec (l : List String) :
    (normDedup l).Nodup ∧
      ∀ x ∈ normDedup l, x ≠ "" ∧ ∃ t, x = normalize_string t :=
  normDedupGo_spec l [] List.nodup_nil (by intro x hx; cases hx)

/-- `split_artists` yields a duplicate-free list of non-empty normalizer
outputs. -/
theorem split_artists_spec (s : String) :
    (split_artists s).Nodup ∧
      ∀ x ∈ split_artists s, x ≠ "" ∧ ∃ t, x = normalize_string t :=
  normDedup_spec _

/-- The artist list extracted from any candidate is duplicate-free and made of
non-empty normalizer outputs. -/
theorem extract_spec (cand : ResultDict) :
    (extract_artist_song_from_result cand).1.Nodup ∧
      ∀ x ∈ (extract_artist_song_from_result cand).1,
        x ≠ "" ∧ ∃ t, x = normalize_string t := by
  rw [extract_artist_song_from_result]
  rcases h : firstTruthyArtist
      [cand.artist, cand.artists, cand.artist_name, cand.trackArtist]
    with _ | v
  · simp
  · cases v with
    | str s =>
      simpa using split_artists_spec s
    | list l =>
      simpa using normDedup_spec l

/-- C10: every verdict of `validate_lyrics_match` is well-formed: both scores
are three-decimal multiples `k/1000` with `k ≤ 1000` (hence in `[0,1]`); the
returned artist list is duplicate-free and consists of non-empty normalizer
outputs; and `script_mismatch` is true only on accepting verdicts — every
rejecting verdict carries `script_mismatch = false`. -/
theorem C10_verdict_wellformed (ra rs : String) (cand : ResultDict) (θ : ℚ) :
    (∃ k : ℕ, k ≤ 1000 ∧
      (validate_lyrics_match ra rs cand θ).artist_match = (k : ℚ) / 1000) ∧
    (∃ k : ℕ, k ≤ 1000 ∧
      (validate_lyrics_match ra rs cand θ).song_match = (k : ℚ) / 1000) ∧
    (validate_lyrics_match ra rs cand θ).returned_artists.Nodup ∧
    (∀ a ∈ (validate_lyrics_match ra rs cand θ).returned_artists,
      a ≠ "" ∧ ∃ t, a = normalize_string t) ∧
    ((validate_lyrics_match ra rs cand θ).valid = false →
      (validate_lyrics_match ra rs cand θ).script_mismatch = false) := by
  have hext := extract_spec cand
  have hone : ∃ k : ℕ, k ≤ 1000 ∧ round3 1 = (k : ℚ) / 1000 :=
    round3_mem 1 (by norm_num) le_rfl
  have hsim := get_similarity_ratio_bounds (normalize_string rs)
    (extract_artist_song_from_result cand).2
  have hstage := validate_artist_stage_bounds ra (split_artists ra)
    (extract_artist_song_from_result cand).1
    (extract_artist_song_from_result cand).2 (_adaptive_threshold ra θ)
    (song_contained_chk (normalize_string rs)
      (extract_artist_song_from_result cand).2)
    (get_similarity_ratio (normalize_string rs)
      (extract_artist_song_from_result cand).2)
  simp only [validate_lyrics_match, _accept]
  split
  · exact ⟨hone, hone, hext.1, hext.2, fun h => nomatch h⟩
  · split
    · exact ⟨hone, hone, hext.1, hext.2, fun h => nomatch h⟩
    · split
      · exact ⟨round3_mem _ hstage.1 hstage.2, round3_mem _ hsim.1 hsim.2,
          hext.1, hext.2, fun h => nomatch h⟩
      · exact ⟨round3_mem _ hstage.1 hstage.2, round3_mem _ hsim.1 hsim.2,
          hext.1, hext.2, fun _ => rfl⟩

/-- C10 — witness: the rejected Shape-of-You verdict carries
`script_mismatch = false`. -/
theorem C10_witness :
    (validate_lyrics_match "Various" "Nasha"
      { artist := some (.str "Ed Sheeran"), title := some "Shape of You" }
      (3/4)).script_mismatch = false :=
  (C10_verdict_wellformed "Various" "Nasha"
    { artist := some (.str "Ed Sheeran"), title := some "Shape of You" }
    (3/4)).2.2.2.2 (by decide)
